import Mathlib

/-!
Verification of the query-safety gate and chat pipeline of `agent.py`
(class `StockDataAgent`).

The Python functions are shallowly embedded as total Lean functions.
External effects (the SQLite store, the Gemini model call, pandas / json
rendering) are modelled by an explicit environment record `Env` whose
fields are oracles: `dbExec` stands for running a SQL string on the
connection, `listTables` / `tableInfo` for the introspection cursors,
`modelReply` for `model.generate_content` (an `Except.error` models a
raised exception), and `renderSchema` / `renderTable` for `json.dumps`
and `pandas.DataFrame.to_string`.  Python dicts with optional keys become
structures with `Option` fields (`none` = key absent or value `None`).
`chat` additionally reports which effects it performed (`modelCalled`,
`dbAccessed`, `promptSent`, `queriesRun`) and returns the new
conversation history instead of mutating it.
-/

/-! ## String helpers mirroring the Python primitives -/

/-- Python `str.upper` (ASCII behaviour, per character). -/
def pyUpper (s : String) : String := ⟨s.data.map Char.toUpper⟩

/-- Python `str.lower` (ASCII behaviour, per character). -/
def pyLower (s : String) : String := ⟨s.data.map Char.toLower⟩

/-- The characters stripped by Python `str.strip()` (ASCII whitespace). -/
def pyWs (c : Char) : Bool :=
  c == ' ' || c == '\t' || c == '\n' || c == '\r' || c == '\x0b' || c == '\x0c'

/-- Strip `pyWs` characters from both ends of a character list. -/
def pyStripL (l : List Char) : List Char :=
  ((l.dropWhile pyWs).reverse.dropWhile pyWs).reverse

/-- Python `str.strip()`. -/
def pyStrip (s : String) : String := ⟨pyStripL s.data⟩

/-- Python `str.rstrip(';')`: remove every trailing `;`. -/
def rstripSemis (s : String) : String :=
  ⟨(s.data.reverse.dropWhile (fun c => c == ';')).reverse⟩

/-- Substring test on character lists (Python `needle in hay`). -/
def containsSub (needle : List Char) : List Char → Bool
  | [] => needle.isEmpty
  | c :: t => needle.isPrefixOf (c :: t) || containsSub needle t

/-- Python `needle in hay` on strings. -/
def containsStr (hay needle : String) : Bool := containsSub needle.data hay.data

/-! ## Constants of `agent.py` -/

/-- `STOCK_KEYWORDS` (agent.py lines 25-30). -/
def STOCK_KEYWORDS : List String :=
  ["stock", "stocks", "share", "shares", "ticker", "symbol", "price", "volume",
   "market", "trading", "equity", "equities", "nasdaq", "nyse", "dow", "s&p",
   "portfolio", "investment", "investor", "dividend", "earnings", "revenue",
   "company", "companies", "sector", "industry", "financial", "finance"]

/-- Message returned when a DELETE/DROP/TRUNCATE keyword is found. -/
def dangerousMsg : String :=
  "Dangerous operation detected: DELETE, DROP, or TRUNCATE operations are not allowed for safety."

/-- Message returned when a modification keyword is found. -/
def modificationMsg : String :=
  "Modification operations (ALTER, UPDATE, INSERT, CREATE) are not allowed. This is a read-only database interface."

/-- Message returned by `execute_query` for a non-SELECT query. -/
def onlySelectMsg : String := "Only SELECT queries are allowed."

/-- Message returned by `chat` when no model is configured. -/
def apiKeyErrorMsg : String :=
  "Error: Gemini API key not configured. Please set GEMINI_API_KEY in your .env file."

/-- Warning returned by `chat` for an out-of-scope utterance. -/
def scopeWarningMsg : String :=
  "Warning: This query doesn't appear to be related to stock data. This application is designed to answer questions about stock market data only. Please ask questions about stocks, companies, trading, or financial data."

/-- Error message of `execute_query` / `get_table_schema` for a missing store file. -/
def dbMissingMsg (db_path : String) : String :=
  "Database file '" ++ db_path ++ "' not found."

/-- Error message of `chat` for a missing store file. -/
def chatDbMissingMsg (db_path : String) : String :=
  "Error: Database file '" ++ db_path ++ "' not found. Please wait for stock data to be loaded."

/-! ## The two lexical gates -/

/-- `StockDataAgent._is_stock_related_query` (agent.py lines 51-54). -/
def _is_stock_related_query (query : String) : Bool :=
  STOCK_KEYWORDS.any (fun keyword => containsStr (pyLower query) keyword)

/-- `StockDataAgent._check_safety` (agent.py lines 56-68): returns
`(is_safe, error_message)`. -/
def _check_safety (query : String) : Bool × String :=
  let query_upper := pyStrip (pyUpper query)
  if ["DELETE", "DROP", "TRUNCATE"].any (fun keyword => containsStr query_upper keyword) then
    (false, dangerousMsg)
  else if ["ALTER", "UPDATE", "INSERT", "CREATE TABLE", "CREATE INDEX"].any
      (fun keyword => containsStr query_upper keyword) then
    (false, modificationMsg)
  else
    (true, "")

/-- `query.strip().upper().startswith('SELECT')` (agent.py line 84). -/
def startsWithSelect (query : String) : Bool :=
  List.isPrefixOf "SELECT".data (pyUpper (pyStrip query)).data

/-- Truthiness of `api_key` in `__init__` (agent.py lines 37-40): the model is
configured iff `os.getenv('GEMINI_API_KEY')` returned a non-empty string. -/
def init_configured (apiKey : Option String) : Bool :=
  match apiKey with
  | none => false
  | some k => !(k == "")

/-! ## Environment and result shapes -/

/-- One raw `PRAGMA table_info` tuple, kept abstract as its rendered fields. -/
abbrev Column := List String

/-- One result row as produced by `dict(zip(columns, row))`. -/
abbrev Row := List (String × String)

/-- Result dict of `execute_query`; `none` models an absent key or `None`. -/
structure QueryResult where
  error : Option String
  data : Option (List Row)
  row_count : Option Nat
deriving DecidableEq

/-- Result dict of `get_table_schema`; `none` models an absent key. -/
structure SchemaResult where
  error : Option String := none
  table : Option String := none
  columns : Option (List Column) := none
  tables : Option (List (String × List Column)) := none
deriving DecidableEq

/-- Conversation roles used by `chat`. -/
inductive Role where
  | user
  | model
deriving DecidableEq

/-- One entry of `self.conversation_history`. -/
structure Msg where
  role : Role
  text : String
deriving DecidableEq

/-- The agent's external world: store, model and rendering oracles.
`Except.error` in an oracle models a raised Python exception. -/
structure Env where
  modelCfg : Bool
  db_path : String
  dbExists : Bool
  dbExec : String → Except String (List String × List (List String))
  listTables : Except String (List String)
  tableInfo : String → Except String (List Column)
  modelReply : List String → Except String String
  renderSchema : SchemaResult → String
  renderTable : List Row → String

/-! ## Query execution (agent.py lines 70-114) -/

/-- The limit-injection step (agent.py lines 96-98): the SQL text actually
handed to the cursor. -/
def limitedSQL (query : String) (limit : Int) : String :=
  if containsStr (pyUpper query) "LIMIT" then query
  else rstripSemis query ++ " LIMIT " ++ toString limit

/-- Shape the outcome of the cursor into the result dict
(agent.py lines 100-114). -/
def dbToResult : Except String (List String × List (List String)) → QueryResult
  | Except.error e => { error := some e, data := none, row_count := none }
  | Except.ok (columns, rows) =>
      { error := none
        data := some (rows.map (fun r => columns.zip r))
        row_count := some rows.length }

/-- `StockDataAgent.execute_query` (agent.py lines 70-114).  The Python
default for `limit` is 100. -/
def execute_query (env : Env) (query : String) (limit : Int) : QueryResult :=
  let safety := _check_safety query
  if safety.1 = false then
    { error := some safety.2, data := none, row_count := none }
  else if startsWithSelect query = false then
    { error := some onlySelectMsg, data := none, row_count := none }
  else if env.dbExists = false then
    { error := some (dbMissingMsg env.db_path), data := none, row_count := none }
  else
    dbToResult (env.dbExec (limitedSQL query limit))

/-- `StockDataAgent.get_table_schema` (agent.py lines 116-147). -/
def get_table_schema (env : Env) (table_name : Option String) : SchemaResult :=
  if env.dbExists = false then
    { error := some (dbMissingMsg env.db_path) }
  else
    match table_name with
    | some t =>
        match env.tableInfo t with
        | Except.error e => { error := some e }
        | Except.ok columns => { table := some t, columns := some columns }
    | none =>
        match env.listTables with
        | Except.error e => { error := some e }
        | Except.ok tables =>
            match tables.mapM (fun t => (env.tableInfo t).map (fun c => (t, c))) with
            | Except.error e => { error := some e }
            | Except.ok schemas => { tables := some schemas }

/-! ## The chat pipeline (agent.py lines 179-286) -/

/-- The sentinel marker `"SQL_QUERY:"` as a character list. -/
def markerL : List Char := "SQL_QUERY:".data

/-- Python `str.split("SQL_QUERY:")` (non-overlapping, left to right);
`acc` holds the reversed characters of the current field.  The `fuel`
argument only drives structural recursion: every step consumes at least
one character and one unit, so starting it at the list length the
zero-fuel arm with remaining input is unreachable. -/
def splitMarkerAux : Nat → List Char → List Char → List (List Char)
  | _, [], acc => [acc.reverse]
  | 0, l, acc => [acc.reverse ++ l]
  | fuel + 1, c :: t, acc =>
    if markerL.isPrefixOf (c :: t) then
      acc.reverse :: splitMarkerAux fuel (t.drop (markerL.length - 1)) []
    else
      splitMarkerAux fuel t (c :: acc)

/-- Python `reply.split("SQL_QUERY:")`. -/
def splitMarker (l : List Char) : List (List Char) := splitMarkerAux l.length l []

/-- `assistant_message.split("SQL_QUERY:")[1].split("\n")[0].strip()`
(agent.py line 260).  `split("\n")[0]` is the text before the first
newline of the field. -/
def sqlExtract (reply : String) : String :=
  pyStrip ⟨((splitMarker reply.data).getD 1 []).takeWhile (fun c => !(c == '\n'))⟩

/-- Lines 258-275 of agent.py: scan the reply for the marker, run the
extracted query and append a rendering.  Returns the final message and
the list of queries handed to `execute_query`. -/
def processReply (env : Env) (reply : String) : String × List String :=
  if containsStr reply "SQL_QUERY:" then
    let sql_part := sqlExtract reply
    if sql_part = "" then (reply, [])
    else
      let query_result := execute_query env sql_part 100
      match query_result.error with
      | some e =>
        if e = "" then
          -- `if query_result.get("error"):` is falsy for an empty message
          (reply ++ "\n\nQuery returned 0 rows.", [sql_part])
        else
          (reply ++ "\n\nError executing query: " ++ e, [sql_part])
      | none =>
        let data := query_result.data.getD []
        let row_count := query_result.row_count.getD 0
        if 0 < row_count then
          (reply ++ "\n\nQuery Results (" ++ toString row_count ++ " rows):\n```\n"
            ++ env.renderTable data ++ "\n```", [sql_part])
        else
          (reply ++ "\n\nQuery returned 0 rows.", [sql_part])
  else (reply, [])

/-- The fixed instruction block of `chat` (agent.py lines 205-229), an
f-string over the rendered schema. -/
def system_instruction (schema_text : String) : String :=
  "You are a helpful stock data assistant. You help users query a stock market database.\n\nDatabase Schema:\n"
  ++ schema_text
  ++ "\n\nIMPORTANT RULES:\n1. When a user asks a question, you should:\n   - First understand what data they need\n   - Generate a SQL SELECT query to get that data\n   - Format your response as: SQL_QUERY: <the query here>\n   - Then provide a natural language explanation\n\n2. You can ONLY generate SELECT queries. Never generate DELETE, DROP, TRUNCATE, UPDATE, INSERT, ALTER, or CREATE operations.\n\n3. When returning data, format it nicely with tables, insights, and summaries.\n\n4. Focus on stock-related queries only.\n\nExample:\nUser: \"Show me top 10 stocks by volume\"\nYou: \"SQL_QUERY: SELECT * FROM stocks ORDER BY volume DESC LIMIT 10\n\nHere are the top 10 stocks by trading volume: [then describe the results]\"\n\nBe helpful, concise, and safety-conscious."

/-- Python `list[-5:]`. -/
def lastN (n : Nat) (l : List α) : List α := l.drop (l.length - n)

/-- Formatting of one history entry in the prompt (agent.py lines 236-242). -/
def fmtMsg (m : Msg) : String :=
  match m.role with
  | Role.user => "User: " ++ m.text
  | Role.model => "Assistant: " ++ m.text

/-- `prompt_parts` as assembled in agent.py lines 232-244. -/
def promptParts (env : Env) (hist : List Msg) (user_message : String) : List String :=
  [system_instruction (env.renderSchema (get_table_schema env none))]
    ++ (lastN 5 hist).map fmtMsg
    ++ ["User: " ++ user_message]

/-- What one `chat` turn returned and did.  `history` is the conversation
history after the turn; the remaining fields record the effects the turn
performed (model call, any store access, the prompt sent, the queries
handed to `execute_query`). -/
structure ChatOut where
  text : String
  inScope : Bool
  history : List Msg
  modelCalled : Bool
  dbAccessed : Bool
  promptSent : Option (List String)
  queriesRun : List String
deriving DecidableEq

/-- `StockDataAgent.chat` (agent.py lines 179-286). -/
def chat (env : Env) (hist : List Msg) (user_message : String) : ChatOut :=
  if env.modelCfg = false then
    { text := apiKeyErrorMsg, inScope := true, history := hist,
      modelCalled := false, dbAccessed := false, promptSent := none, queriesRun := [] }
  else if _is_stock_related_query user_message = false then
    { text := scopeWarningMsg, inScope := false, history := hist,
      modelCalled := false, dbAccessed := false, promptSent := none, queriesRun := [] }
  else if env.dbExists = false then
    { text := chatDbMissingMsg env.db_path, inScope := true, history := hist,
      modelCalled := false, dbAccessed := false, promptSent := none, queriesRun := [] }
  else
    match env.modelReply (promptParts env hist user_message) with
    | Except.error e =>
      { text := "I encountered an error: " ++ e ++ ". Please try again or check your query.",
        inScope := true, history := hist, modelCalled := true, dbAccessed := true,
        promptSent := some (promptParts env hist user_message), queriesRun := [] }
    | Except.ok reply =>
      let processed := processReply env reply
      { text := processed.1, inScope := true,
        history := hist ++ [⟨Role.user, user_message⟩, ⟨Role.model, processed.1⟩],
        modelCalled := true, dbAccessed := true,
        promptSent := some (promptParts env hist user_message),
        queriesRun := processed.2 }

/-! ## Lemmas about substring containment and stripping -/

/-- `containsSub` decides `List.IsInfix`. -/
theorem containsSub_correct (needle hay : List Char) :
    containsSub needle hay = true ↔ needle <:+: hay := by
  induction hay with
  | nil =>
    simp [containsSub, List.isEmpty_iff, List.infix_nil]
  | cons c t ih =>
    simp [containsSub, List.isPrefixOf_iff_prefix, ih, List.infix_cons_iff]

/-- An occurrence of a pattern whose first character does not satisfy `p`
survives `dropWhile p`. -/
theorem infix_dropWhile_of_head (p : Char → Bool) (kw : List Char)
    (hk : ∀ c, kw.head? = some c → p c = false) :
    ∀ t, kw <:+: t → kw <:+: t.dropWhile p := by
  intro t
  induction t with
  | nil =>
    intro h
    simpa using h
  | cons a t ih =>
    intro h
    by_cases hpa : p a = true
    · rw [List.dropWhile_cons, if_pos hpa]
      rcases List.infix_cons_iff.mp h with hpre | hinf
      · match kw, hpre with
        | [], _ => exact List.nil_infix
        | c :: kw', hpre =>
          have hca := (List.cons_prefix_cons.mp hpre).1
          have := hk c rfl
          rw [hca] at this
          rw [this] at hpa
          exact absurd hpa (by simp)
      · exact ih hinf
    · rw [List.dropWhile_cons, if_neg hpa]
      exact h

/-- An occurrence of a pattern whose first and last characters are not
whitespace survives `pyStripL`. -/
theorem infix_pyStripL (kw l : List Char)
    (hh : ∀ c, kw.head? = some c → pyWs c = false)
    (hl : ∀ c, kw.reverse.head? = some c → pyWs c = false)
    (h : kw <:+: l) : kw <:+: pyStripL l := by
  have h1 : kw <:+: l.dropWhile pyWs := infix_dropWhile_of_head pyWs kw hh l h
  have h2 : kw.reverse <:+: (l.dropWhile pyWs).reverse := h1.reverse
  have h3 := infix_dropWhile_of_head pyWs kw.reverse hl _ h2
  have h4 := h3.reverse
  rw [List.reverse_reverse] at h4
  exact h4

/-- The stripped list is an infix of the original. -/
theorem pyStripL_within (l : List Char) : pyStripL l <:+: l := by
  have h1 : (l.dropWhile pyWs).reverse.dropWhile pyWs <:+ (l.dropWhile pyWs).reverse :=
    List.dropWhile_suffix pyWs
  have h2 : ((l.dropWhile pyWs).reverse.dropWhile pyWs).reverse <+: l.dropWhile pyWs := by
    have := List.reverse_prefix.mpr h1
    rwa [List.reverse_reverse] at this
  exact List.IsInfix.trans h2.isInfix ((List.dropWhile_suffix pyWs).isInfix)

/-- Containment in the upper-cased text transfers to the stripped
upper-cased text used by `_check_safety`, for patterns whose first and
last characters are not whitespace. -/
theorem containsStr_strip_of_containsStr (s kw : String)
    (hh : ∀ c, kw.data.head? = some c → pyWs c = false)
    (hl : ∀ c, kw.data.reverse.head? = some c → pyWs c = false)
    (h : containsStr s kw = true) :
    containsStr (pyStrip s) kw = true := by
  rw [containsStr, containsSub_correct] at h
  rw [containsStr, containsSub_correct]
  exact infix_pyStripL kw.data s.data hh hl h

/-- Containment in the stripped text implies containment in the original. -/
theorem containsStr_of_containsStr_strip (s kw : String)
    (h : containsStr (pyStrip s) kw = true) :
    containsStr s kw = true := by
  rw [containsStr, containsSub_correct] at h
  rw [containsStr, containsSub_correct]
  exact List.IsInfix.trans h (pyStripL_within s.data)

/-- Lift a Bool condition on the first character to the `head?` form used
by the strip lemmas. -/
theorem head_cond_of_take (kw : List Char) (p : Char → Bool)
    (h : (kw.take 1).all (fun c => !(p c)) = true) :
    ∀ c, kw.head? = some c → p c = false := by
  intro c hc
  cases kw with
  | nil => simp at hc
  | cons a t =>
    simp at hc
    subst hc
    simpa using h

/-- Fully decidable form of `containsStr_strip_of_containsStr`. -/
theorem containsStr_strip_of_containsStrB (s kw : String)
    (hb : (kw.data.take 1).all (fun c => !(pyWs c)) = true)
    (hb2 : (kw.data.reverse.take 1).all (fun c => !(pyWs c)) = true)
    (h : containsStr s kw = true) : containsStr (pyStrip s) kw = true :=
  containsStr_strip_of_containsStr s kw
    (head_cond_of_take _ _ hb) (head_cond_of_take _ _ hb2) h

/-! ## Concrete environments used by witnesses and counterexamples -/

/-- A configured agent over a present store with one `stocks` table and
two rows; the model oracle answers with plain prose. -/
def envOk : Env :=
  { modelCfg := true, db_path := "stock_data.db", dbExists := true,
    dbExec := fun _ => Except.ok (["ticker"], [["AAPL"], ["MSFT"]]),
    listTables := Except.ok ["stocks"],
    tableInfo := fun _ => Except.ok [["0", "ticker", "TEXT"]],
    modelReply := fun _ => Except.ok "hello",
    renderSchema := fun _ => "S", renderTable := fun _ => "T" }

/-- A present but empty store: every query succeeds with zero rows. -/
def envProbe : Env :=
  { modelCfg := true, db_path := "stock_data.db", dbExists := true,
    dbExec := fun _ => Except.ok ([], []),
    listTables := Except.ok [], tableInfo := fun _ => Except.ok [],
    modelReply := fun _ => Except.ok "", renderSchema := fun _ => "",
    renderTable := fun _ => "" }

/-- A configured agent whose store file is absent. -/
def envNoDb : Env := { envProbe with dbExists := false }

/-! ## C1: DELETE/DROP/TRUNCATE are always blocked -/

/-- C1 (confirmed): any input whose upper-cased form contains `DELETE`,
`DROP` or `TRUNCATE` anywhere is blocked by `_check_safety` with the
fixed dangerous-operation message, regardless of the rest of the
string. -/
theorem C1_dangerous_blocked (q kw : String)
    (hkw : kw ∈ (["DELETE", "DROP", "TRUNCATE"] : List String))
    (h : containsStr (pyUpper q) kw = true) :
    _check_safety q = (false, dangerousMsg) := by
  have hs : containsStr (pyStrip (pyUpper q)) kw = true := by
    apply containsStr_strip_of_containsStrB _ _ ?_ ?_ h <;> (fin_cases hkw <;> decide)
  have hany : (["DELETE", "DROP", "TRUNCATE"] : List String).any
      (fun keyword => containsStr (pyStrip (pyUpper q)) keyword) = true :=
    List.any_eq_true.mpr ⟨kw, hkw, hs⟩
  simp [_check_safety, hany]

/-- C1 witness: the spec's own example is blocked. -/
theorem C1_witness :
    _check_safety "SELECT * FROM stocks; DROP TABLE stocks" = (false, dangerousMsg) :=
  C1_dangerous_blocked "SELECT * FROM stocks; DROP TABLE stocks" "DROP"
    (by decide) (by decide)

/-! ## C9: modification keywords get the second message -/

/-- C9 (confirmed): an input containing none of the dangerous keywords but
containing `ALTER`, `UPDATE`, `INSERT`, `CREATE TABLE` or `CREATE INDEX`
(in its upper-cased form) is blocked with the distinct
modification-operations message. -/
theorem C9_modification_blocked (q kw : String)
    (hnone : ∀ k ∈ (["DELETE", "DROP", "TRUNCATE"] : List String),
        containsStr (pyUpper q) k = false)
    (hkw : kw ∈ (["ALTER", "UPDATE", "INSERT", "CREATE TABLE", "CREATE INDEX"] : List String))
    (h : containsStr (pyUpper q) kw = true) :
    _check_safety q = (false, modificationMsg) := by
  have hs : containsStr (pyStrip (pyUpper q)) kw = true := by
    apply containsStr_strip_of_containsStrB _ _ ?_ ?_ h <;> (fin_cases hkw <;> decide)
  have hnone' : (["DELETE", "DROP", "TRUNCATE"] : List String).any
      (fun keyword => containsStr (pyStrip (pyUpper q)) keyword) = false := by
    rw [List.any_eq_false]
    intro k hk
    cases hx : containsStr (pyStrip (pyUpper q)) k
    · simp
    · have hfull := containsStr_of_containsStr_strip (pyUpper q) k hx
      rw [hnone k hk] at hfull
      simp at hfull
  have hany : (["ALTER", "UPDATE", "INSERT", "CREATE TABLE", "CREATE INDEX"] : List String).any
      (fun keyword => containsStr (pyStrip (pyUpper q)) keyword) = true :=
    List.any_eq_true.mpr ⟨kw, hkw, hs⟩
  simp [_check_safety, hnone', hany]

/-- C9 witness: the spec's `UPDATE` example gets the modification message. -/
theorem C9_witness :
    _check_safety "UPDATE stocks SET price=0" = (false, modificationMsg) :=
  C9_modification_blocked "UPDATE stocks SET price=0" "UPDATE"
    (by decide) (by decide) (by decide)

/-! ## C2: the SELECT-only gate -/

/-- C2 (confirmed): for inputs passing the keyword safety check,
`execute_query` answers with the fixed `Only SELECT queries are allowed.`
rejection — for every environment and limit — exactly when the trimmed,
case-normalized text does not start with `SELECT`; in particular a
lowercase `select` after leading whitespace is accepted. -/
theorem C2_select_gate (q : String) (hsafe : (_check_safety q).1 = true) :
    (∀ env : Env, ∀ limit : Int,
        execute_query env q limit =
          { error := some onlySelectMsg, data := none, row_count := none }) ↔
      startsWithSelect q = false := by
  constructor
  · intro hall
    cases hsel : startsWithSelect q
    · rfl
    · exfalso
      have h1 := hall envProbe 100
      simp [execute_query, hsafe, hsel, envProbe, dbToResult] at h1
  · intro hsel env limit
    simp [execute_query, hsafe, hsel]

/-- C2 witness: a safety-passing non-SELECT input is rejected with the
fixed message, and the spec's lowercase example passes the gate. -/
theorem C2_witness :
    (execute_query envProbe "foobar" 100 =
      { error := some onlySelectMsg, data := none, row_count := none }) ∧
    startsWithSelect "  select * from stocks" = true :=
  ⟨((C2_select_gate "foobar" (by decide)).mpr (by decide)) envProbe 100, by decide⟩

/-! ## C3: limit injection -/

/-- C3 (confirmed): once both gates pass and the store exists, the SQL
text actually run is the original text when its upper-cased form contains
`LIMIT`, and otherwise the text with all trailing semicolons stripped and
a ` LIMIT <limit>` clause appended. -/
theorem C3_limit_injection (env : Env) (q : String) (limit : Int)
    (hsafe : (_check_safety q).1 = true) (hsel : startsWithSelect q = true)
    (hdb : env.dbExists = true) :
    execute_query env q limit = dbToResult (env.dbExec (limitedSQL q limit)) ∧
    (containsStr (pyUpper q) "LIMIT" = true → limitedSQL q limit = q) ∧
    (containsStr (pyUpper q) "LIMIT" = false →
        limitedSQL q limit = rstripSemis q ++ " LIMIT " ++ toString limit) := by
  refine ⟨?_, ?_, ?_⟩
  · simp [execute_query, hsafe, hsel, hdb]
  · intro h
    simp [limitedSQL, h]
  · intro h
    simp [limitedSQL, h]

/-- C3 witness: the two spec examples — a query without a limiting clause
runs with ` LIMIT 100` appended, one with `LIMIT 5` runs unmodified. -/
theorem C3_witness :
    execute_query envOk "SELECT * FROM stocks" 100 =
        dbToResult (envOk.dbExec (limitedSQL "SELECT * FROM stocks" 100)) ∧
    limitedSQL "SELECT * FROM stocks" 100 = "SELECT * FROM stocks LIMIT 100" ∧
    limitedSQL "SELECT * FROM stocks LIMIT 5" 100 = "SELECT * FROM stocks LIMIT 5" := by
  refine ⟨(C3_limit_injection envOk "SELECT * FROM stocks" 100
      (by decide) (by decide) rfl).1, ?_, ?_⟩
  · rw [(C3_limit_injection envOk "SELECT * FROM stocks" 100
      (by decide) (by decide) rfl).2.2 (by decide)]
    decide
  · exact (C3_limit_injection envOk "SELECT * FROM stocks LIMIT 5" 100
      (by decide) (by decide) rfl).2.1 (by decide)

/-! ## C4: failures become error values, never exceptions -/

/-- C4 (confirmed): `execute_query` and `get_table_schema` are total; a
missing store file or a failing cursor yields a result whose `error`
field carries the underlying message with no data, and on every path at
most one of `error` / `data` is populated.  (Totality of the Lean
functions models the Python `try/except` returning on every path.) -/
theorem C4_error_values (env : Env) (q : String) (limit : Int) (t : String) :
    ((execute_query env q limit).error = none ∨ (execute_query env q limit).data = none) ∧
    ((_check_safety q).1 = true → startsWithSelect q = true → env.dbExists = false →
        execute_query env q limit =
          { error := some (dbMissingMsg env.db_path), data := none, row_count := none }) ∧
    (∀ e, (_check_safety q).1 = true → startsWithSelect q = true → env.dbExists = true →
        env.dbExec (limitedSQL q limit) = Except.error e →
        execute_query env q limit = { error := some e, data := none, row_count := none }) ∧
    (env.dbExists = false →
        get_table_schema env (some t) = { error := some (dbMissingMsg env.db_path) }) ∧
    (∀ e, env.dbExists = true → env.tableInfo t = Except.error e →
        get_table_schema env (some t) = { error := some e }) ∧
    (∀ e, env.dbExists = true → env.listTables = Except.error e →
        get_table_schema env none = { error := some e }) ∧
    ((get_table_schema env (some t)).error.isSome →
        (get_table_schema env (some t)).columns = none ∧
        (get_table_schema env (some t)).tables = none) := by
  refine ⟨?_, ?_, ?_, ?_, ?_, ?_, ?_⟩
  · simp only [execute_query]
    split
    · simp
    · split
      · simp
      · split
        · simp
        · cases hx : env.dbExec (limitedSQL q limit) <;> simp [dbToResult, hx]
  · intro hsafe hsel hdb
    simp [execute_query, hsafe, hsel, hdb]
  · intro e hsafe hsel hdb hx
    simp [execute_query, hsafe, hsel, hdb, hx, dbToResult]
  · intro hdb
    simp [get_table_schema, hdb]
  · intro e hdb hti
    simp [get_table_schema, hdb, hti]
  · intro e hdb hlt
    simp [get_table_schema, hdb, hlt]
  · intro herr
    by_cases hdb : env.dbExists = false
    · simp [get_table_schema, hdb]
    · cases hx : env.tableInfo t with
      | error e => simp [get_table_schema, hdb, hx]
      | ok cols => simp [get_table_schema, hdb, hx] at herr

/-- C4 witness: against a missing store file both operations return the
fixed not-found error value. -/
theorem C4_witness :
    execute_query envNoDb "SELECT 1" 100 =
      { error := some "Database file 'stock_data.db' not found.",
        data := none, row_count := none } ∧
    get_table_schema envNoDb (some "stocks") =
      { error := some "Database file 'stock_data.db' not found." } := by
  have h := C4_error_values envNoDb "SELECT 1" 100 "stocks"
  exact ⟨(h.2.1 (by decide) (by decide) rfl).trans (by decide),
         (h.2.2.2.1 rfl).trans (by decide)⟩

/-! ## C6: the scope gate -/

/-- C6 (confirmed): with a configured model, an utterance whose
lower-cased text contains none of the stock keywords is answered with the
fixed out-of-scope warning, `isInScope = false`, no model call, no store
access and an unchanged history; an utterance containing a keyword
proceeds past the gate (every later branch reports `isInScope = true`). -/
theorem C6_scope_gate (env : Env) (hist : List Msg) (u : String)
    (hm : env.modelCfg = true) :
    (_is_stock_related_query u = false →
        chat env hist u =
          { text := scopeWarningMsg, inScope := false, history := hist,
            modelCalled := false, dbAccessed := false, promptSent := none,
            queriesRun := [] }) ∧
    (_is_stock_related_query u = true → (chat env hist u).inScope = true) := by
  constructor
  · intro hscope
    simp [chat, hm, hscope]
  · intro hscope
    simp only [chat, hm, hscope]
    by_cases hdb : env.dbExists = false
    · simp [hdb]
    · simp only [hdb]
      cases hr : env.modelReply (promptParts env hist u) <;> simp

/-- C6 witness: the spec's weather example is rejected without effects,
its stock example passes the gate. -/
theorem C6_witness :
    chat envOk [] "what's the weather" =
      { text := scopeWarningMsg, inScope := false, history := [],
        modelCalled := false, dbAccessed := false, promptSent := none,
        queriesRun := [] } ∧
    (chat envOk [] "show me top stocks by volume").inScope = true :=
  ⟨(C6_scope_gate envOk [] "what's the weather" rfl).1 (by decide),
   (C6_scope_gate envOk [] "show me top stocks by volume" rfl).2 (by decide)⟩

/-! ## C10: unconfigured model short-circuits everything -/

/-- C10 (confirmed): when `GEMINI_API_KEY` was absent at construction the
model is unconfigured, and `chat` answers every utterance — in or out of
scope — with the fixed configuration-error message and `isInScope = true`,
before the scope gate, with no model call, no store access and no history
append. -/
theorem C10_unconfigured (apiKey : Option String) (env : Env) (hist : List Msg)
    (u : String) (hk : apiKey = none)
    (hm : env.modelCfg = init_configured apiKey) :
    chat env hist u =
      { text := apiKeyErrorMsg, inScope := true, history := hist,
        modelCalled := false, dbAccessed := false, promptSent := none,
        queriesRun := [] } := by
  subst hk
  simp [chat, hm, init_configured]

/-- C10 witness: an unconfigured agent rejects even an out-of-scope
utterance with the configuration error. -/
theorem C10_witness :
    chat { envOk with modelCfg := init_configured none } [] "what's the weather" =
      { text := apiKeyErrorMsg, inScope := true, history := [],
        modelCalled := false, dbAccessed := false, promptSent := none,
        queriesRun := [] } :=
  C10_unconfigured none { envOk with modelCfg := init_configured none } []
    "what's the weather" rfl rfl

/-! ## C7: history recording -/

/-- A configured agent whose model call raises. -/
def envModelFail : Env := { envOk with modelReply := fun _ => Except.error "network down" }

/-- C7 counterexample: an in-scope utterance reaches the model stage
(`modelCalled = true`), the model call raises, the apologetic message is
returned — and the history is NOT appended (it stays `[]`), contradicting
the claim that the pair is recorded regardless of outcome. -/
theorem C7_counterexample :
    _is_stock_related_query "show me stocks" = true ∧
    (chat envModelFail [] "show me stocks").modelCalled = true ∧
    (chat envModelFail [] "show me stocks").history = [] ∧
    (chat envModelFail [] "show me stocks").text =
      "I encountered an error: network down. Please try again or check your query." := by
  refine ⟨by decide, ?_, ?_, ?_⟩ <;> rfl

/-- C7 (corrected): once the scope gate passes and the store exists,
`chat` appends the (utterance, final reply) pair to the history whenever
the model call returns a reply — including when the embedded query stage
produced an error value — but when the model call raises an exception the
apologetic turn is returned with the history left unchanged. -/
theorem C7_history_append (env : Env) (hist : List Msg) (u : String)
    (hm : env.modelCfg = true) (hs : _is_stock_related_query u = true)
    (hdb : env.dbExists = true) :
    (∀ r, env.modelReply (promptParts env hist u) = Except.ok r →
        (chat env hist u).history =
          hist ++ [⟨Role.user, u⟩, ⟨Role.model, (chat env hist u).text⟩]) ∧
    (∀ e, env.modelReply (promptParts env hist u) = Except.error e →
        (chat env hist u).history = hist) := by
  constructor
  · intro r hr
    simp [chat, hm, hs, hdb, hr]
  · intro e hr
    simp [chat, hm, hs, hdb, hr]

/-- C7 witness: on a successful model call the turn is recorded. -/
theorem C7_witness :
    (chat envOk [] "any stock news").history =
      [] ++ [⟨Role.user, "any stock news"⟩,
             ⟨Role.model, (chat envOk [] "any stock news").text⟩] :=
  (C7_history_append envOk [] "any stock news" rfl (by decide) rfl).1 "hello" rfl

/-! ## C8: the history window in the prompt -/

/-- Five complete turn-pairs of conversation history. -/
def hist10 : List Msg :=
  [⟨Role.user, "q1"⟩, ⟨Role.model, "a1"⟩, ⟨Role.user, "q2"⟩, ⟨Role.model, "a2"⟩,
   ⟨Role.user, "q3"⟩, ⟨Role.model, "a3"⟩, ⟨Role.user, "q4"⟩, ⟨Role.model, "a4"⟩,
   ⟨Role.user, "q5"⟩, ⟨Role.model, "a5"⟩]

/-- C8 counterexample: with 5 stored turn-pairs (10 messages) the claim
predicts 1 instruction + 10 replayed messages + 1 new utterance = 12
prompt parts, but the code slices `conversation_history[-5:]` — 5
individual messages — so the prompt has 7 parts. -/
theorem C8_counterexample :
    hist10.length = 10 ∧
    ((chat envOk hist10 "stock history").promptSent.getD []).length = 7 ∧
    (7 : Nat) ≠ 1 + 10 + 1 := by
  refine ⟨rfl, ?_, by decide⟩
  rfl

/-- C8 (corrected): the prompt replays the most recent 5 individual
messages of the history (not 5 turn-pairs), each formatted by role,
between the instruction block and the new utterance; older messages are
excluded from the prompt while the stored history keeps every prior
message (the old history is a prefix of the new one). -/
theorem C8_window (env : Env) (hist : List Msg) (u : String)
    (hm : env.modelCfg = true) (hs : _is_stock_related_query u = true)
    (hdb : env.dbExists = true) :
    (chat env hist u).promptSent =
      some ([system_instruction (env.renderSchema (get_table_schema env none))]
        ++ (hist.drop (hist.length - 5)).map fmtMsg ++ ["User: " ++ u]) ∧
    (∀ r, env.modelReply (promptParts env hist u) = Except.ok r →
        hist <+: (chat env hist u).history) := by
  constructor
  · simp only [chat, hm, hs, hdb]
    cases hr : env.modelReply (promptParts env hist u) <;>
      simp [promptParts, lastN]
  · intro r hr
    simp [chat, hm, hs, hdb, hr]

/-- C8 witness: with 5 stored pairs the prompt window is the last 5
messages and the stored history is preserved. -/
theorem C8_witness :
    (chat envOk hist10 "stock check").promptSent =
      some ([system_instruction (envOk.renderSchema (get_table_schema envOk none))]
        ++ (hist10.drop (hist10.length - 5)).map fmtMsg ++ ["User: " ++ "stock check"]) ∧
    hist10 <+: (chat envOk hist10 "stock check").history := by
  have h := C8_window envOk hist10 "stock check" rfl (by decide) rfl
  exact ⟨h.1, h.2 "hello" rfl⟩

/-! ## C5: marker extraction and query execution in `chat` -/

/-- A configured agent whose model replies with a bare marker line. -/
def envMarkerEmpty : Env :=
  { envOk with modelReply := fun _ => Except.ok "SQL_QUERY:\nok" }

/-- C5 counterexample: the reply `"SQL_QUERY:\nok"` contains the marker,
and the text after the first marker up to the line break strips to the
empty string; per the claim that (empty) query would be passed through
the safety gate and `execute_query` (yielding the non-SELECT rejection)
with a rendering of the error appended — but the code skips execution for
an empty candidate and returns the reply unchanged: nothing reaches
`execute_query` and nothing is appended. -/
theorem C5_counterexample :
    containsStr "SQL_QUERY:\nok" "SQL_QUERY:" = true ∧
    sqlExtract "SQL_QUERY:\nok" = "" ∧
    (chat envMarkerEmpty [] "stock question").queriesRun = [] ∧
    (chat envMarkerEmpty [] "stock question").text = "SQL_QUERY:\nok" := by
  refine ⟨by decide, by decide, ?_, ?_⟩ <;> rfl

/-- C5 (corrected): when the model reply contains the sentinel marker the
embedded candidate is the first field after splitting the reply at every
occurrence of the marker, truncated at the next line break and stripped;
only when that candidate is nonempty is it passed through the safety gate
via `execute_query`, with a rendering of the result rows (or the error
message, or a zero-rows note) appended to the reply; an empty candidate
or a reply without the marker is returned unchanged with no query
executed. -/
theorem C5_marker_execution (env : Env) (hist : List Msg) (u reply : String)
    (hm : env.modelCfg = true) (hs : _is_stock_related_query u = true)
    (hdb : env.dbExists = true)
    (hr : env.modelReply (promptParts env hist u) = Except.ok reply) :
    (containsStr reply "SQL_QUERY:" = false →
        (chat env hist u).text = reply ∧ (chat env hist u).queriesRun = []) ∧
    (containsStr reply "SQL_QUERY:" = true → sqlExtract reply = "" →
        (chat env hist u).text = reply ∧ (chat env hist u).queriesRun = []) ∧
    (containsStr reply "SQL_QUERY:" = true → sqlExtract reply ≠ "" →
        (chat env hist u).queriesRun = [sqlExtract reply] ∧
        (∀ e, (execute_query env (sqlExtract reply) 100).error = some e → e ≠ "" →
            (chat env hist u).text = reply ++ "\n\nError executing query: " ++ e) ∧
        (∀ rc, (execute_query env (sqlExtract reply) 100).error = none →
            (execute_query env (sqlExtract reply) 100).row_count = some rc →
            (0 < rc →
                (chat env hist u).text =
                  reply ++ "\n\nQuery Results (" ++ toString rc ++ " rows):\n```\n"
                    ++ env.renderTable ((execute_query env (sqlExtract reply) 100).data.getD [])
                    ++ "\n```") ∧
            (rc = 0 → (chat env hist u).text = reply ++ "\n\nQuery returned 0 rows."))) := by
  have hc : chat env hist u =
      { text := (processReply env reply).1, inScope := true,
        history := hist ++ [⟨Role.user, u⟩, ⟨Role.model, (processReply env reply).1⟩],
        modelCalled := true, dbAccessed := true,
        promptSent := some (promptParts env hist u),
        queriesRun := (processReply env reply).2 } := by
    simp [chat, hm, hs, hdb, hr]
  refine ⟨?_, ?_, ?_⟩
  · intro hmk
    rw [hc]
    simp [processReply, hmk]
  · intro hmk hemp
    rw [hc]
    simp [processReply, hmk, hemp]
  · intro hmk hne
    refine ⟨?_, ?_, ?_⟩
    · rw [hc]
      simp only [processReply, hmk, if_true]
      cases hqe : (execute_query env (sqlExtract reply) 100).error with
      | none => simp [hne, hqe]; split <;> rfl
      | some e => simp [hne, hqe]; split <;> rfl
    · intro e hqe he
      rw [hc]
      simp [processReply, hmk, hne, hqe, he]
    · intro rc hqe hrc
      constructor
      · intro h0
        rw [hc]
        simp [processReply, hmk, hne, hqe, hrc, h0]
      · intro h0
        rw [hc]
        simp [processReply, hmk, hne, hqe, hrc, h0]

/-- The spec's end-to-end example reply. -/
def markerReply2 : String :=
  "SQL_QUERY: SELECT ticker FROM stocks LIMIT 2\nHere are two tickers"

/-- A configured agent whose model replies with the spec's end-to-end
example. -/
def envMarker2 : Env :=
  { envOk with modelReply := fun _ => Except.ok markerReply2 }

/-- C5 witness: the spec's end-to-end example — the embedded query is
extracted exactly, executed, and the final text carries the explanation
plus a rendering of the 2 returned rows. -/
theorem C5_witness :
    (chat envMarker2 [] "show me stock tickers").queriesRun =
      ["SELECT ticker FROM stocks LIMIT 2"] ∧
    (chat envMarker2 [] "show me stock tickers").text =
      "SQL_QUERY: SELECT ticker FROM stocks LIMIT 2\nHere are two tickers\n\nQuery Results (2 rows):\n```\nT\n```" := by
  have h := (C5_marker_execution envMarker2 [] "show me stock tickers" markerReply2
      rfl (by decide) rfl rfl).2.2 (by decide) (by decide)
  have h2 := (h.2.2 2 (by decide) (by decide)).1 (by decide)
  exact ⟨h.1.trans (by decide), h2.trans (by decide)⟩
